import Mathlib

/-
Verification development for the attendance pipeline of the HR backend.

Embedded source files:
  * backend/app/attendance_service.py  (class AttendanceService)
  * backend/app/face_recognition_utils.py (compare_faces and its callers)

Modelling conventions:
  * Naive Python datetimes are microseconds since the epoch (Nat).  `date.today()`
    is `now / day_us`; `datetime.now().time()` is `now % day_us`; the service is
    modelled on a single timeline (server clock = UTC), so `datetime.utcnow()`
    is also `now`.
  * Python floats in the decision pipeline are rationals; the transcendental
    functions of the `math` module (sin, cos, asin, atan2, sqrt, radians, pi)
    are collaborators and are passed as explicit parameters; the claim theorems
    instantiate them with the corresponding real functions.
  * SQLAlchemy queries over the session become `List.find?` / `List.filter`
    over an explicit database state `DB`; `.first()` is `find?`.
  * Each stage of the service returns an error dictionary for an expected
    failure; an uncaught Python exception is the `StageErr.exn` constructor,
    which the `mark_attendance_comprehensive` boundary normalizes to a
    `system_error` result, as in the source.
  * The source file defines `_perform_pre_checks`, `_perform_verification`,
    `_perform_validation` and `_create_attendance_record` twice; the later
    definition shadows the earlier one in Python, so the later definitions are
    the executed ones and are embedded under the plain names.  The status
    block of the earlier (shadowed) `_create_attendance_record` is embedded
    separately as `determine_status_v1`.
-/

deriving instance DecidableEq for Except

namespace AttendanceApp

/-- Microseconds in one day. -/
def day_us : ℕ := 86400000000

/-- Microseconds in one minute. -/
def minute_us : ℕ := 60000000

/-- Microseconds of `datetime.time.max` = 23:59:59.999999 past midnight. -/
def time_max_us : ℕ := 86399999999

/-- Microseconds past midnight of the wall-clock time h:m. -/
def hm (h m : ℕ) : ℕ := (h * 60 + m) * minute_us

/-- Row of the users table: only the activity flag is consulted. -/
structure UserRow where
  is_active : Bool
deriving DecidableEq

/-- Row of the employees table; `user` is the joined user account. -/
structure EmployeeRow where
  id : ℕ
  user : Option UserRow
deriving DecidableEq

/-- Row of the WFH request table (`models.WFHRequest`). `request_date` is a day number. -/
structure WFHRow where
  id : ℕ
  employee_id : ℕ
  request_date : ℕ
  status : String
deriving DecidableEq

/-- Row of the shifts table (`models.Shift`). -/
structure ShiftRow where
  id : ℕ
  name : String
  is_active : Bool
deriving DecidableEq

/-- Row of the attendance table (`models.Attendance`), with the fields written by
the executed `_create_attendance_record` and by `approve_attendance`.
`date` and `check_in` are naive datetimes in microseconds. -/
structure AttendanceRow where
  id : ℕ
  employee_id : ℕ
  date : ℕ
  check_in : ℕ
  status : String
  work_mode : String
  latitude : Option ℚ
  longitude : Option ℚ
  photo_url : Option String
  location_address : String
  verification_method : String
  is_fraud_suspected : Bool
  wfh_request_id : Option ℕ
  requires_approval : Bool
  approval_status : String
  shift_id : Option ℕ
  face_match_confidence : Option ℚ
  flagged_reason : Option String
  approved_by : Option ℕ
  approved_at : Option ℕ
  approval_notes : Option String
deriving DecidableEq

/-- The persistence store consumed through the SQLAlchemy session. -/
structure DB where
  employees : List EmployeeRow
  attendance : List AttendanceRow
  wfh_requests : List WFHRow
  shifts : List ShiftRow
deriving DecidableEq

/-- A stage outcome: an expected error dictionary (`failure` with its
`error`/`error_type` tag and message) or an uncaught Python exception (`exn`). -/
inductive StageErr where
  | failure (error_type : String) (message : String)
  | exn (message : String)
deriving DecidableEq

/-- Python truthiness of an optional float: `None` and `0.0` are falsy
(the source guards coordinates with `if not latitude or not longitude`). -/
def py_truthy (x : Option ℚ) : Bool :=
  match x with
  | none => false
  | some v => !(v == 0)

/-- The shift window table `AttendanceService.SHIFT_WINDOWS`
(start/end as microseconds past midnight, grace in minutes). -/
structure ShiftConfig where
  start : ℕ
  shift_end : ℕ
  grace : ℕ
deriving DecidableEq

/-- `SHIFT_WINDOWS` lookup by shift name. -/
def shift_windows (name : String) : Option ShiftConfig :=
  if name == "Morning Shift" then some ⟨hm 8 0, hm 11 0, 15⟩
  else if name == "Evening Shift" then some ⟨hm 13 0, hm 16 0, 15⟩
  else if name == "Night Shift" then some ⟨hm 21 0, hm 23 59, 15⟩
  else none

/-- The default window used by `_perform_validation` when the assigned shift
name is not in `SHIFT_WINDOWS` (9 AM - 11 AM, 15 minutes grace). -/
def default_window : ShiftConfig := ⟨hm 9 0, hm 11 0, 15⟩

/-- `AttendanceService._get_employee_shift`: returns the first shift row named
"Morning Shift" regardless of the employee, per the source. -/
def get_employee_shift (db : DB) : Option ShiftRow :=
  db.shifts.find? (fun s => s.name == "Morning Shift")

/-- Successful result of the pre-check stage. -/
structure PreCheckOk where
  employee : EmployeeRow
  wfh_request : Option WFHRow
  assigned_shift : Option ShiftRow
deriving DecidableEq

/-- The executed `AttendanceService._perform_pre_checks` (second definition):
employee lookup, activity check, the already-marked query over the window
`[combine(today, time.min), combine(today, time.max))`, the WFH lookup and the
shift lookup. -/
def perform_pre_checks (db : DB) (employee_id : ℕ) (now : ℕ) : Except StageErr PreCheckOk :=
  match db.employees.find? (fun e => e.id == employee_id) with
  | none => .error (.failure "employee_not_found" "Employee profile not found")
  | some employee =>
    match employee.user with
    | none => .error (.failure "employee_inactive" "Employee account is inactive")
    | some u =>
      if !u.is_active then
        .error (.failure "employee_inactive" "Employee account is inactive")
      else
        let today := now / day_us
        match db.attendance.find? (fun a =>
            a.employee_id == employee_id
            && decide (today * day_us ≤ a.date)
            && decide (a.date < today * day_us + time_max_us)) with
        | some _ => .error (.failure "already_marked" "Attendance already marked for today")
        | none =>
          let wfh := db.wfh_requests.find? (fun w =>
            w.employee_id == employee_id && w.request_date == today && w.status == "approved")
          .ok ⟨employee, wfh, get_employee_shift db⟩

/-- `AttendanceService._calculate_late_minutes`: whole minutes by which
`current_time` exceeds `expected_time`, both microseconds past midnight of
the same day; 0 when not past it. -/
def calculate_late_minutes (current_time expected_time : ℕ) : ℕ :=
  if expected_time < current_time then (current_time - expected_time) / minute_us else 0

/-- The `validation_data` dictionary of the executed `_perform_validation`
(the `shift_window` display entry is presentation only and is omitted). -/
structure ValidationData where
  within_time_window : Bool
  requires_approval : Bool
  attendance_status : String
  work_mode : String
  late_minutes : ℕ
deriving DecidableEq

/-- The executed `AttendanceService._perform_validation` (second definition):
shift-window classification with grace period, then the office-mode GPS
presence check (coordinate truthiness).  `current_time` is microseconds past
midnight. -/
def perform_validation (assigned_shift : Option ShiftRow) (wfh_request : Option WFHRow)
    (latitude longitude : Option ℚ) (current_time : ℕ) : Except StageErr ValidationData :=
  let work_mode := if wfh_request.isSome then "wfh" else "office"
  let base : ValidationData :=
    { within_time_window := false, requires_approval := false,
      attendance_status := "present", work_mode := work_mode, late_minutes := 0 }
  let vd :=
    match assigned_shift with
    | some sh =>
      let cfg := (shift_windows sh.name).getD default_window
      if cfg.start ≤ current_time ∧ current_time ≤ cfg.shift_end then
        { base with within_time_window := true }
      else
        let grace_end := (cfg.shift_end + cfg.grace * minute_us) % day_us
        if current_time ≤ grace_end then
          { base with within_time_window := true,
                      late_minutes := calculate_late_minutes current_time cfg.shift_end }
        else
          { base with requires_approval := true, attendance_status := "late",
                      late_minutes := calculate_late_minutes current_time cfg.shift_end }
    | none =>
      if hm 9 0 ≤ current_time ∧ current_time ≤ hm 11 0 then
        { base with within_time_window := true }
      else
        { base with requires_approval := true, attendance_status := "late",
                    late_minutes := calculate_late_minutes current_time (hm 11 0) }
  if vd.work_mode == "office" && (!(py_truthy latitude) || !(py_truthy longitude)) then
    .error (.failure "location_required_office" "GPS location is required for office attendance")
  else
    .ok vd

/-- Output of `face_recognition_utils.detect_image_quality` for the attendance
image (the cv2 image analysis itself is an external collaborator; only the
fields consumed by `compare_faces` are modelled). -/
structure QualityAnalysis where
  quality_score : ℚ
  acceptable : Bool
deriving DecidableEq

/-- Output of `face_recognition_utils.detect_liveness_indicators` for the
attendance image (cv2 analysis external; consumed fields only). -/
structure LivenessAnalysis where
  overall_score : ℚ
  is_likely_live : Bool
  warnings : List String
deriving DecidableEq

/-- The external inputs to one face comparison: the stored profile image
reference (`load_profile_image`, a file-system collaborator), whether both
images decode (`decode_base64_image`), the quality and liveness analyses of
the attendance image, whether both face encodings extract
(`get_face_encoding`), and the distance reported by
`face_recognition.face_distance`. -/
structure FaceEnv where
  profile_image : Option Unit
  decode_ok : Bool
  quality : QualityAnalysis
  liveness : LivenessAnalysis
  encoding_ok : Bool
  face_distance : ℚ
deriving DecidableEq

/-- The result dictionary of `face_recognition_utils.compare_faces` (the keys
the service consumes; `face_match` is the dictionary key named `match`). -/
structure CompareResult where
  face_match : Bool
  confidence : ℚ
  raw_confidence : ℚ
  security_warnings : List String
  confidence_modifier : ℚ
deriving DecidableEq

/-- Python `round(x, 2)`.  (Python rounds float ties to even; the tie behavior
in the hundredths digit is irrelevant to every property below.) -/
def round2 (q : ℚ) : ℚ := ((round (q * 100) : ℤ) : ℚ) / 100

/-- `face_recognition_utils.compare_faces` from the decoded images onward:
the quality gate, the security-warning collection, the distance/tolerance
match, the clamped confidence, the multiplicative liveness and quality
discounts, and the two-warning forced mismatch.  The decode-failure and
encoding-error branches return match `False`, confidence 0 as in the source
(those early dictionaries carry no `security_warnings` key, embedded as `[]`). -/
def compare_faces (env : FaceEnv) (tolerance : ℚ) : CompareResult :=
  if !env.decode_ok then
    { face_match := false, confidence := 0, raw_confidence := 0,
      security_warnings := [], confidence_modifier := 1 }
  else if !env.quality.acceptable then
    { face_match := false, confidence := 0, raw_confidence := 0,
      security_warnings := [], confidence_modifier := 1 }
  else
    let security_warnings :=
      (if !env.liveness.is_likely_live then ["Possible photo spoofing detected"] else [])
        ++ env.liveness.warnings
    if !env.encoding_ok then
      { face_match := false, confidence := 0, raw_confidence := 0,
        security_warnings := [], confidence_modifier := 1 }
    else
      let face_distance := env.face_distance
      let match0 := decide (face_distance ≤ tolerance)
      let confidence : ℚ := max 0 (min 100 ((1 - face_distance) * 100))
      let modifier0 : ℚ := 1
      let modifier1 := if env.liveness.overall_score < 50 then modifier0 * (8/10) else modifier0
      let modifier := if env.quality.quality_score < 80 then modifier1 * (9/10) else modifier1
      let adjusted_confidence := confidence * modifier
      let forced := decide (2 ≤ security_warnings.length) && decide (adjusted_confidence < 85)
      { face_match := if forced then false else match0,
        confidence := round2 adjusted_confidence,
        raw_confidence := round2 confidence,
        security_warnings :=
          if forced then security_warnings ++ ["Multiple security concerns detected"]
          else security_warnings,
        confidence_modifier := modifier }

/-- `AttendanceService._verify_face_recognition`: profile-image presence, then
`compare_faces` with tolerance 0.6; any non-match becomes the `face_mismatch`
error; on a match the (adjusted, rounded) confidence is returned. -/
def verify_face_recognition (env : FaceEnv) : Except StageErr ℚ :=
  match env.profile_image with
  | none => .error (.failure "profile_image_missing"
      "Profile image not found. Please upload your profile image first")
  | some _ =>
    let result := compare_faces env (6/10)
    if !result.face_match then
      .error (.failure "face_mismatch" "Face does not match profile image")
    else
      .ok result.confidence

/-- The configured office coordinate (`OFFICE_COORDS`). -/
def office_lat : ℚ := 17.4065

/-- The configured office coordinate (`OFFICE_COORDS`). -/
def office_lon : ℚ := 78.4772

/-- The configured geofence radius in meters (`MAX_DISTANCE`). -/
def max_allowed_distance : ℚ := 100

/-- `AttendanceService._validate_gps_location`: the coordinate truthiness
guard, then the haversine distance against the office radius.  The
trigonometric `_haversine_distance` is passed as a parameter. -/
def validate_gps_location (haversine : ℚ → ℚ → ℚ → ℚ → ℚ)
    (latitude longitude : Option ℚ) : Except StageErr ℚ :=
  if !(py_truthy latitude) || !(py_truthy longitude) then
    .error (.failure "location_required" "GPS location is required for office attendance")
  else
    let distance := haversine (latitude.getD 0) (longitude.getD 0) office_lat office_lon
    if max_allowed_distance < distance then
      .error (.failure "location_too_far" "Too far from office")
    else
      .ok distance

/-- The Python method `date.weekday()` for a day number since the epoch
(1970-01-01 was a Thursday, weekday 3; Monday is 0). -/
def weekday (day : ℕ) : ℕ := (day + 3) % 7

/-- One named, severity-tagged fraud signal. -/
structure FraudIndicator where
  type : String
  severity : String
  details : String
deriving DecidableEq

/-- `AttendanceService._detect_fraud_indicators`: the four heuristic checks
(low face confidence, location anomaly against the last three of the recent
attendance rows, rapid repeat attempts within five minutes, unapproved
weekend attendance). -/
def detect_fraud_indicators (db : DB) (employee : EmployeeRow)
    (_photo_base64 : Option String) (latitude longitude : Option ℚ)
    (face_match_confidence : ℚ) (haversine : ℚ → ℚ → ℚ → ℚ → ℚ) (now : ℕ) :
    List FraudIndicator :=
  let fi1 :=
    if face_match_confidence < 70 then
      [⟨"low_face_confidence", "medium",
        "Face confidence " ++ toString face_match_confidence ++ "% below threshold"⟩]
    else []
  let recent_attendance := db.attendance.filter (fun a =>
    a.employee_id == employee.id && decide (now - 7 * day_us ≤ a.date))
  let last3 := recent_attendance.drop (recent_attendance.length - 3)
  let fi2 :=
    if py_truthy latitude && py_truthy longitude && !recent_attendance.isEmpty then
      match last3.find? (fun att =>
          py_truthy att.latitude && py_truthy att.longitude
          && decide ((1000 : ℚ) < haversine (latitude.getD 0) (longitude.getD 0)
                      (att.latitude.getD 0) (att.longitude.getD 0))) with
      | some att =>
        [⟨"location_anomaly", "low",
          "Location differs by "
            ++ toString ⌊haversine (latitude.getD 0) (longitude.getD 0)
                  (att.latitude.getD 0) (att.longitude.getD 0)⌋
            ++ "m from recent attendance"⟩]
      | none => []
    else []
  let recent_attempts := (db.attendance.filter (fun a =>
    a.employee_id == employee.id && decide (now - 5 * minute_us ≤ a.date))).length
  let fi3 :=
    if 0 < recent_attempts then
      [⟨"rapid_attempts", "high", "Multiple attendance attempts within 5 minutes"⟩]
    else []
  let today := now / day_us
  let fi4 :=
    if 5 ≤ weekday today
        ∧ (db.wfh_requests.find? (fun w =>
            w.employee_id == employee.id && w.request_date == today
            && w.status == "approved")).isNone then
      [⟨"weekend_attendance", "medium", "Attendance on weekend without special approval"⟩]
    else []
  fi1 ++ fi2 ++ fi3 ++ fi4

/-- The result of the security validation consumed at
`attendance_service.py:573-588`. -/
structure SecurityValidation where
  security_passed : Bool
  critical_issues : List String
  warnings : List String
deriving DecidableEq

/-- Modelled from the spec: `app.security_service` (imported at the top of
`attendance_service.py` and called as
`security_service.validate_attendance_security`) is not among the source
files; only its call site is.  Per the spec (section 4.4), more than zero
prior attendance attempts by the same employee within the last 5 minutes is a
hard block that must fail the security validation regardless of all other
signals; the remaining heuristics are soft warnings that do not clear
`security_passed` and are irrelevant to every claim below, so they are
embedded as the empty warning list. -/
def validate_attendance_security (db : DB) (employee_id : ℕ) (now : ℕ) : SecurityValidation :=
  let recent_attempts := (db.attendance.filter (fun a =>
    a.employee_id == employee_id && decide (now - 5 * minute_us ≤ a.date))).length
  if 0 < recent_attempts then
    { security_passed := false, critical_issues := ["rapid_attempts"], warnings := [] }
  else
    { security_passed := true, critical_issues := [], warnings := [] }

/-- The module-level names of `attendance_service.py` (its imports and
top-level definitions), for Python name resolution in the executed
`_perform_verification`. -/
def attendance_service_globals : List String :=
  ["datetime", "time", "date", "timedelta", "Dict", "Any", "Optional", "Tuple",
   "Session", "models", "get_notification_service", "get_security_service",
   "math", "base64", "os", "logging", "logger", "FACE_RECOGNITION_AVAILABLE",
   "face_recognition_utils", "AttendanceService", "get_attendance_service"]

/-- The names bound in the executed `_perform_verification` (its parameters
and every name assigned in its body). -/
def perform_verification_locals : List String :=
  ["self", "employee", "photo_base64", "latitude", "longitude",
   "use_face_recognition", "verification_data", "face_result", "wfh_request",
   "work_mode", "gps_result", "security_validation"]

/-- Python name resolution inside the executed `_perform_verification`:
locals, then module globals.  (`fraud_indicators` is not a Python builtin
either, so a failed lookup here raises `NameError`.) -/
def name_in_verification_scope (n : String) : Bool :=
  perform_verification_locals.contains n || attendance_service_globals.contains n

/-- The `verification_data` dictionary of the executed `_perform_verification`. -/
structure VerificationData where
  photo_captured : Bool
  face_recognition_used : Bool
  face_match_confidence : ℚ
  gps_validated : Bool
  location_distance : Option ℚ
  fraud_indicators : List String
  security_validation : SecurityValidation
deriving DecidableEq

/-- The executed `AttendanceService._perform_verification` (second
definition): photo-capture check, face recognition, office-mode GPS
validation, the security validation, and the success payload, which reads the
unbound name `fraud_indicators` (`"fraud_score": len(fraud_indicators)`) and
therefore raises `NameError` instead of returning. -/
def perform_verification (db : DB) (employee : EmployeeRow)
    (photo_base64 : Option String) (latitude longitude : Option ℚ)
    (use_face_recognition : Bool) (env : FaceEnv)
    (haversine : ℚ → ℚ → ℚ → ℚ → ℚ) (now : ℕ) : Except StageErr VerificationData :=
  match photo_base64 with
  | none => .error (.failure "photo_required" "Photo is required for attendance verification")
  | some _ =>
    let face_step : Except StageErr (Option ℚ) :=
      if use_face_recognition then (verify_face_recognition env).map some else .ok none
    match face_step with
    | .error e => .error e
    | .ok face_confidence =>
      let today := now / day_us
      let wfh_request := db.wfh_requests.find? (fun w =>
        w.employee_id == employee.id && w.request_date == today && w.status == "approved")
      let work_mode := if wfh_request.isSome then "wfh" else "office"
      let gps_step : Except StageErr (Option ℚ) :=
        if work_mode == "office" then (validate_gps_location haversine latitude longitude).map some
        else .ok none
      match gps_step with
      | .error e => .error e
      | .ok location_distance =>
        let security_validation := validate_attendance_security db employee.id now
        if !security_validation.security_passed then
          .error (.failure "security_validation_failed" "Security validation failed")
        else if name_in_verification_scope "fraud_indicators" then
          .ok { photo_captured := true,
                face_recognition_used := use_face_recognition,
                face_match_confidence := face_confidence.getD 0,
                gps_validated := location_distance.isSome,
                location_distance := location_distance,
                fraud_indicators := security_validation.warnings,
                security_validation := security_validation }
        else
          .error (.exn "NameError: name fraud_indicators is not defined")

/-- The executed `AttendanceService._create_attendance_record` (second
definition): builds the attendance row from the verification and validation
data and inserts it.  The photo store is a collaborator returning a stable
path; the new primary key is the next autoincrement value; a persistence
failure (the `record_creation_failed` branch) is a store fault outside this
model. -/
def create_attendance_record (db : DB) (employee : EmployeeRow)
    (wfh_request : Option WFHRow) (assigned_shift : Option ShiftRow)
    (photo_base64 : Option String) (latitude longitude : Option ℚ)
    (verification_data : VerificationData) (validation_data : ValidationData)
    (now : ℕ) : Except StageErr AttendanceRow × DB :=
  let photo_url := photo_base64.map (fun _ => "uploads/attendance_photos/photo.jpg")
  let location_address :=
    if validation_data.work_mode == "wfh" then "Work From Home" else "Hyderabad, Telangana"
  let attendance : AttendanceRow :=
    { id := db.attendance.length,
      employee_id := employee.id,
      date := now,
      check_in := now,
      status := validation_data.attendance_status,
      work_mode := validation_data.work_mode,
      latitude := latitude,
      longitude := longitude,
      photo_url := photo_url,
      location_address := location_address,
      verification_method :=
        if verification_data.face_recognition_used then "face_recognition" else "photo",
      is_fraud_suspected := !verification_data.fraud_indicators.isEmpty,
      wfh_request_id := wfh_request.map (fun w => w.id),
      requires_approval := validation_data.requires_approval,
      approval_status :=
        if !validation_data.requires_approval then "auto_approved" else "pending",
      shift_id := assigned_shift.map (fun s => s.id),
      face_match_confidence := some verification_data.face_match_confidence,
      flagged_reason :=
        if verification_data.fraud_indicators.isEmpty then none
        else some (String.intercalate "; " verification_data.fraud_indicators),
      approved_by := none,
      approved_at := none,
      approval_notes := none }
  (.ok attendance, { db with attendance := db.attendance ++ [attendance] })

/-- Inputs of the shadowed first record stage taken from the first
the `verification_data` of `_perform_verification`. -/
structure VerificationDataV1 where
  face_verified : Bool
  face_confidence : ℚ
  location_verified : Bool
deriving DecidableEq

/-- Inputs of the shadowed first record stage taken from the first
`_perform_validation`. -/
structure ValidationDataV1 where
  time_window_valid : Bool
  location_required : Bool
deriving DecidableEq

/-- The status computation of the shadowed first record stage (lines 283-298): sequential overrides late, then remote-unverified, then identity-unverified. -/
def determine_status_v1 (verification_data : VerificationDataV1)
    (validation_data : ValidationDataV1) : String × Bool :=
  let s0 := ("present", false)
  let s1 := if !validation_data.time_window_valid then ("late", true) else s0
  let s2 :=
    if validation_data.location_required && !verification_data.location_verified then
      ("remote_unverified", true)
    else s1
  if verification_data.face_verified == false
      && verification_data.face_confidence < 7/10 then
    ("identity_unverified", true)
  else s2

/-- Result of `mark_attendance_comprehensive`: the structured failure or the
success payload. -/
inductive MarkResult where
  | failure (error_type : String) (message : String)
  | success (attendance_id : ℕ) (status : String) (requires_approval : Bool)
deriving DecidableEq

/-- The pipeline boundary: an expected error dictionary is returned as is; an
uncaught exception is normalized to the `system_error` failure, message
preserved. -/
def stage_err_to_result (e : StageErr) : MarkResult :=
  match e with
  | .failure t m => .failure t m
  | .exn m => .failure "system_error" ("System error: " ++ m)

/-- `AttendanceService.mark_attendance_comprehensive`: pre-checks, then
verification, then validation, then the record-creation call.  The call at
line 114 passes five positional arguments to the executed eight-parameter
`_create_attendance_record`, so Python raises `TypeError` at the call itself;
the boundary handler turns any exception into the `system_error` failure. -/
def mark_attendance_comprehensive (db : DB) (employee_id : ℕ)
    (photo_base64 : Option String) (latitude longitude : Option ℚ)
    (use_face_recognition : Bool) (env : FaceEnv)
    (haversine : ℚ → ℚ → ℚ → ℚ → ℚ) (now : ℕ) : MarkResult × DB :=
  match perform_pre_checks db employee_id now with
  | .error e => (stage_err_to_result e, db)
  | .ok pc =>
    match perform_verification db pc.employee photo_base64 latitude longitude
        use_face_recognition env haversine now with
    | .error e => (stage_err_to_result e, db)
    | .ok _ =>
      match perform_validation pc.assigned_shift pc.wfh_request latitude longitude
          (now % day_us) with
      | .error e => (stage_err_to_result e, db)
      | .ok _ =>
        (stage_err_to_result (.exn
          "TypeError: _create_attendance_record missing required positional arguments"), db)

/-- The pre-check stage composed with the executed record stage, with the
verification and validation outputs as parameters: one submission that, if
the pre-checks pass, persists its record.  This is the composition the
idempotency invariant is about. -/
def attempt_mark (db : DB) (employee_id : ℕ) (photo_base64 : Option String)
    (latitude longitude : Option ℚ) (verification_data : VerificationData)
    (validation_data : ValidationData) (now : ℕ) : Except StageErr AttendanceRow × DB :=
  match perform_pre_checks db employee_id now with
  | .error e => (.error e, db)
  | .ok pc =>
    create_attendance_record db pc.employee pc.wfh_request pc.assigned_shift
      photo_base64 latitude longitude verification_data validation_data now

/-- Result of `approve_attendance`. -/
inductive ApproveResult where
  | success (message new_status : String)
  | failure (message : String)
deriving DecidableEq

/-- The status remap of `approve_attendance` (lines 400-405). -/
def remap_status (s : String) : String :=
  if s == "late" then "present_late"
  else if s == "remote_unverified" then "remote_approved"
  else if s == "identity_unverified" then "present_approved"
  else s

/-- `AttendanceService.approve_attendance`: lookup by id, the
pending-approval guard, then the single-row update stamping approver,
timestamp and notes and remapping the status. -/
def approve_attendance (db : DB) (attendance_id approved_by : ℕ)
    (notes : Option String) (now : ℕ) : ApproveResult × DB :=
  match db.attendance.find? (fun a => a.id == attendance_id) with
  | none => (.failure "Attendance record not found", db)
  | some attendance =>
    if !attendance.requires_approval then
      (.failure "Attendance does not require approval", db)
    else
      let updated := { attendance with
        requires_approval := false,
        approved_by := some approved_by,
        approved_at := some now,
        approval_notes := notes,
        status := remap_status attendance.status }
      (.success "Attendance approved successfully" updated.status,
       { db with attendance :=
           db.attendance.map (fun r => if r.id == attendance_id then updated else r) })

/-- `AttendanceService._calculate_distance` (the asin form of the haversine):
`math.radians`, `sin`, `cos`, `asin` and `sqrt` are `math`-module
collaborators passed as parameters; the claim theorems instantiate them with
the real functions. -/
def calculate_distance {K : Type} [Field K] (radians sin cos asin sqrt : K → K)
    (lat1 lon1 lat2 lon2 : K) : K :=
  let rlat1 := radians lat1
  let rlon1 := radians lon1
  let rlat2 := radians lat2
  let rlon2 := radians lon2
  let dlat := rlat2 - rlat1
  let dlon := rlon2 - rlon1
  let a := sin (dlat / 2) ^ 2 + cos rlat1 * cos rlat2 * sin (dlon / 2) ^ 2
  let c := 2 * asin (sqrt a)
  c * 6371000

/-- `AttendanceService._haversine_distance` (the atan2 form): `math.pi`,
`sin`, `cos`, `sqrt` and `atan2` passed as parameters. -/
def haversine_distance {K : Type} [Field K] (pi : K) (sin cos sqrt : K → K)
    (atan2 : K → K → K) (lat1 lon1 lat2 lon2 : K) : K :=
  let R : K := 6371000
  let phi1 := lat1 * pi / 180
  let phi2 := lat2 * pi / 180
  let delta_phi := (lat2 - lat1) * pi / 180
  let delta_lambda := (lon2 - lon1) * pi / 180
  let a := sin (delta_phi / 2) * sin (delta_phi / 2)
    + cos phi1 * cos phi2 * sin (delta_lambda / 2) * sin (delta_lambda / 2)
  let c := 2 * atan2 (sqrt a) (sqrt (1 - a))
  R * c

/-- An employee with an active user account. -/
def active_employee : EmployeeRow := ⟨1, some ⟨true⟩⟩

/-- A verification payload with every check passed, for exercising the record
stage in isolation. -/
def sample_verification_data : VerificationData :=
  { photo_captured := true, face_recognition_used := true, face_match_confidence := 95,
    gps_validated := true, location_distance := some 10, fraud_indicators := [],
    security_validation := ⟨true, [], []⟩ }

/-- A verification payload whose GPS check did not pass. -/
def gps_failed_verification_data : VerificationData :=
  { sample_verification_data with gps_validated := false, location_distance := none }

/-- An on-time office validation payload. -/
def sample_validation_data : ValidationData :=
  { within_time_window := true, requires_approval := false, attendance_status := "present",
    work_mode := "office", late_minutes := 0 }

/-- The last microsecond (23:59:59.999999) of day 20000. -/
def boundary_first_ts : ℕ := 20000 * day_us + time_max_us

/-- A store holding only the active employee. -/
def boundary_db0 : DB := ⟨[active_employee], [], [], []⟩

/-- The store after a first submission that checked in at the last microsecond
of the day. -/
def boundary_db1 : DB :=
  (attempt_mark boundary_db0 1 (some "photo") (some 17) (some 78)
    sample_verification_data sample_validation_data boundary_first_ts).2

/-- A face environment with a perfect match and no security concerns. -/
def quiet_face_env : FaceEnv := ⟨some (), true, ⟨100, true⟩, ⟨100, true, []⟩, true, 0⟩

/-- A clean face environment at distance 0.7, beyond the 0.6 tolerance. -/
def mismatch_face_env : FaceEnv := ⟨some (), true, ⟨100, true⟩, ⟨100, true, []⟩, true, 7/10⟩

/-- A clean face environment at distance 0.5: confidence 50, a match. -/
def half_distance_face_env : FaceEnv := ⟨some (), true, ⟨100, true⟩, ⟨100, true, []⟩, true, 1/2⟩

/-- A perfect-distance face environment with low liveness (40), low quality
(70) and two security warnings. -/
def discounted_face_env : FaceEnv :=
  ⟨some (), true, ⟨70, true⟩, ⟨40, false, ["Unusual edge patterns detected"]⟩, true, 0⟩

/-- A degenerate distance collaborator that always reports 0 meters. -/
def zero_distance : ℚ → ℚ → ℚ → ℚ → ℚ := fun _ _ _ _ => 0

/-- A record checked in at 23:58 of day 20000 (two minutes before midnight). -/
def rapid_prior_record : AttendanceRow :=
  { id := 0, employee_id := 1, date := 20001 * day_us - 2 * minute_us,
    check_in := 20001 * day_us - 2 * minute_us, status := "present", work_mode := "office",
    latitude := some 17, longitude := some 78, photo_url := none,
    location_address := "Hyderabad, Telangana", verification_method := "face_recognition",
    is_fraud_suspected := false, wfh_request_id := none, requires_approval := false,
    approval_status := "auto_approved", shift_id := none, face_match_confidence := some 95,
    flagged_reason := none, approved_by := none, approved_at := none, approval_notes := none }

/-- A store where the employee already attempted two minutes ago. -/
def rapid_db : DB := ⟨[active_employee], [rapid_prior_record], [], []⟩

/-- 00:02 of day 20001: four minutes after `rapid_prior_record`. -/
def rapid_now : ℕ := 20001 * day_us + 2 * minute_us

/-- A late record pending approval. -/
def pending_late_record : AttendanceRow :=
  { rapid_prior_record with
    id := 5, status := "late", requires_approval := true,
    approval_status := "pending" }

/-- A store holding the pending late record. -/
def approval_db : DB := ⟨[active_employee], [pending_late_record], [], []⟩

/-- The name `fraud_indicators` is not bound in the scope of the executed
`_perform_verification`. -/
theorem fraud_name_not_in_scope : name_in_verification_scope "fraud_indicators" = false := by
  decide

/-- The pipeline boundary never turns a stage error into a success payload. -/
theorem stage_err_result_not_success (e : StageErr) (i : ℕ) (s : String) (r : Bool) :
    stage_err_to_result e ≠ .success i s r := by
  cases e <;> simp [stage_err_to_result]

/-- The executed verification stage can never return a success value. -/
theorem perform_verification_no_ok (db : DB) (employee : EmployeeRow)
    (photo_base64 : Option String) (latitude longitude : Option ℚ)
    (use_face_recognition : Bool) (env : FaceEnv)
    (haversine : ℚ → ℚ → ℚ → ℚ → ℚ) (now : ℕ) (v : VerificationData) :
    perform_verification db employee photo_base64 latitude longitude
      use_face_recognition env haversine now ≠ .ok v := by
  intro h
  simp only [perform_verification] at h
  repeat' (first | split at h | simp_all [fraud_name_not_in_scope])


/-- When the photo, face, and GPS sub-checks pass, the verification stage
reaches the security gate: a failed security validation is the
`security_validation_failed` error, a passed one runs into the unbound-name
`NameError`. -/
theorem perform_verification_security_gate (db : DB) (employee : EmployeeRow)
    (p : String) (latitude longitude : Option ℚ) (use_face_recognition : Bool)
    (env : FaceEnv) (haversine : ℚ → ℚ → ℚ → ℚ → ℚ) (now : ℕ)
    (hface : use_face_recognition = true → (verify_face_recognition env).isOk = true)
    (hgps : (db.wfh_requests.find? (fun w =>
        w.employee_id == employee.id && w.request_date == now / day_us
        && w.status == "approved")).isNone = true →
      (validate_gps_location haversine latitude longitude).isOk = true) :
    perform_verification db employee (some p) latitude longitude
      use_face_recognition env haversine now
      = if (validate_attendance_security db employee.id now).security_passed then
          .error (.exn "NameError: name fraud_indicators is not defined")
        else
          .error (.failure "security_validation_failed" "Security validation failed") := by
  simp only [perform_verification]
  have hface2 : (if use_face_recognition = true then Except.map some (verify_face_recognition env)
      else Except.ok none) = Except.ok (if use_face_recognition = true
        then (verify_face_recognition env).toOption else none) := by
    cases hu : use_face_recognition with
    | false => simp
    | true =>
      cases hv : verify_face_recognition env with
      | error e =>
        have h2 := hface hu
        simp [hv, Except.isOk, Except.toBool] at h2
      | ok c => simp [Except.map, Except.toOption]
  rw [hface2]
  cases hw : db.wfh_requests.find? (fun w =>
      w.employee_id == employee.id && w.request_date == now / day_us
      && w.status == "approved") with
  | some w =>
    cases hs : (validate_attendance_security db employee.id now).security_passed <;>
      simp [hw, hs, fraud_name_not_in_scope, Except.map]
  | none =>
    have hg := hgps (by rw [hw]; rfl)
    cases hgv : validate_gps_location haversine latitude longitude with
    | error e =>
      simp [hgv, Except.isOk, Except.toBool] at hg
    | ok g =>
      cases hs : (validate_attendance_security db employee.id now).security_passed <;>
        simp [hw, hgv, hs, fraud_name_not_in_scope, Except.map]

/-- The pipeline never mutates the store and never returns a success payload:
the verification stage cannot succeed, and even its own record-stage call
would raise `TypeError`. -/
theorem mark_outcome (db : DB) (employee_id : ℕ) (photo_base64 : Option String)
    (latitude longitude : Option ℚ) (use_face_recognition : Bool) (env : FaceEnv)
    (haversine : ℚ → ℚ → ℚ → ℚ → ℚ) (now : ℕ) :
    (mark_attendance_comprehensive db employee_id photo_base64 latitude longitude
      use_face_recognition env haversine now).2 = db
    ∧ ∀ i s r, (mark_attendance_comprehensive db employee_id photo_base64 latitude longitude
      use_face_recognition env haversine now).1 ≠ .success i s r := by
  constructor
  · unfold mark_attendance_comprehensive
    repeat' (first | split | rfl)
  · intro i s r
    unfold mark_attendance_comprehensive
    repeat' split
    all_goals intro hcon
    all_goals rw [show ∀ (x : MarkResult) (y : DB), (x, y).1 = x from fun _ _ => rfl] at hcon
    all_goals exact stage_err_result_not_success _ _ _ _ hcon

/-- Updating the found row in place: after mapping the conditional
replacement over the list, the first row matching the id is the replacement. -/
theorem find_update_first {l : List AttendanceRow} {aid : ℕ} {a a2 : AttendanceRow}
    (hfind : l.find? (fun r => r.id == aid) = some a) (hid : a2.id = aid) :
    (l.map (fun r => if r.id == aid then a2 else r)).find? (fun r => r.id == aid)
      = some a2 := by
  revert hfind
  induction l with
  | nil => intro hfind; simp at hfind
  | cons x t ih =>
    intro hfind
    simp only [List.map_cons]
    by_cases hx : x.id = aid
    · rw [if_pos (by simp [hx])]
      exact List.find?_cons_of_pos _ (by simp [hid])
    · rw [if_neg (by simp [hx])]
      rw [List.find?_cons_of_neg _ (by simp [hx])]
      rw [List.find?_cons_of_neg _ (by simp [hx])] at hfind
      exact ih hfind

/-- C1: code evaluated at the failing input.  The pre-check window for
"already marked today" is `[combine(today, time.min), combine(today, time.max))`
with an exclusive upper bound, so a first record stamped at the last
microsecond of the day (23:59:59.999999) is missed: a second submission by
the same employee on the same calendar date passes the pre-check instead of
returning `already_marked`, and the record stage then persists a second
record for the same (employee, date). -/
theorem already_marked_time_max_boundary :
    (attempt_mark boundary_db0 1 (some "photo") (some 17) (some 78)
      sample_verification_data sample_validation_data boundary_first_ts).1.isOk = true
    ∧ (perform_pre_checks boundary_db1 1 boundary_first_ts).isOk = true
    ∧ (attempt_mark boundary_db1 1 (some "photo") (some 17) (some 78)
        sample_verification_data sample_validation_data boundary_first_ts).2.attendance.length = 2
    ∧ ((attempt_mark boundary_db1 1 (some "photo") (some 17) (some 78)
        sample_verification_data sample_validation_data boundary_first_ts).2.attendance.all
          (fun r => r.employee_id == 1 && r.date / day_us == 20000)) = true := by
  refine ⟨by decide, by decide, by decide, by decide⟩

/-- C2: the executed verification stage never returns success, because the
success payload evaluates the unbound name `fraud_indicators`: any call whose
photo, face, GPS and security sub-checks all pass ends in the `NameError`
exception; the pipeline boundary normalizes it to the `system_error` failure,
leaves the store unchanged, and never reaches the record-creation stage. -/
theorem verification_unbound_name_blocks_success :
    (∀ db employee photo_base64 latitude longitude use_face_recognition env haversine now v,
      perform_verification db employee photo_base64 latitude longitude
        use_face_recognition env haversine now ≠ .ok v)
  ∧ (∀ db employee (photo_base64 : Option String) latitude longitude use_face_recognition
        env haversine now,
      photo_base64.isSome = true →
      (use_face_recognition = true → (verify_face_recognition env).isOk = true) →
      ((db.wfh_requests.find? (fun w =>
          w.employee_id == employee.id && w.request_date == now / day_us
          && w.status == "approved")).isNone = true →
        (validate_gps_location haversine latitude longitude).isOk = true) →
      (validate_attendance_security db employee.id now).security_passed = true →
      perform_verification db employee photo_base64 latitude longitude
        use_face_recognition env haversine now
        = .error (.exn "NameError: name fraud_indicators is not defined"))
  ∧ (∀ db employee_id (photo_base64 : Option String) latitude longitude use_face_recognition
        env haversine now pc,
      perform_pre_checks db employee_id now = .ok pc →
      photo_base64.isSome = true →
      (use_face_recognition = true → (verify_face_recognition env).isOk = true) →
      ((db.wfh_requests.find? (fun w =>
          w.employee_id == pc.employee.id && w.request_date == now / day_us
          && w.status == "approved")).isNone = true →
        (validate_gps_location haversine latitude longitude).isOk = true) →
      (validate_attendance_security db pc.employee.id now).security_passed = true →
      (mark_attendance_comprehensive db employee_id photo_base64 latitude longitude
        use_face_recognition env haversine now).1
        = .failure "system_error" "System error: NameError: name fraud_indicators is not defined")
  ∧ (∀ db employee_id photo_base64 latitude longitude use_face_recognition env haversine now,
      (mark_attendance_comprehensive db employee_id photo_base64 latitude longitude
        use_face_recognition env haversine now).2 = db
      ∧ ∀ i s r, (mark_attendance_comprehensive db employee_id photo_base64 latitude longitude
          use_face_recognition env haversine now).1 ≠ .success i s r) := by
  refine ⟨perform_verification_no_ok, ?_, ?_, fun db eid p la lo u env hav now => mark_outcome db eid p la lo u env hav now⟩
  · intro db employee photo_base64 latitude longitude use_face_recognition env haversine now
      hphoto hface hgps hsec
    cases photo_base64 with
    | none => simp at hphoto
    | some p =>
      rw [perform_verification_security_gate db employee p latitude longitude
        use_face_recognition env haversine now hface hgps, if_pos hsec]
  · intro db employee_id photo_base64 latitude longitude use_face_recognition env haversine now
      pc hpc hphoto hface hgps hsec
    cases photo_base64 with
    | none => simp at hphoto
    | some p =>
      simp only [mark_attendance_comprehensive, hpc]
      rw [perform_verification_security_gate db pc.employee p latitude longitude
        use_face_recognition env haversine now hface hgps, if_pos hsec]
      rfl

/-- C2 witness: a concrete call with every sub-check passing ends in the
`NameError`, and the pipeline reports it as `system_error`. -/
theorem verification_unbound_name_blocks_success_witness :
    perform_verification boundary_db0 active_employee (some "p") (some 17) (some 78) true
      quiet_face_env zero_distance (20000 * day_us)
      = .error (.exn "NameError: name fraud_indicators is not defined")
    ∧ (mark_attendance_comprehensive boundary_db0 1 (some "p") (some 17) (some 78) true
        quiet_face_env zero_distance (20000 * day_us)).1
      = .failure "system_error" "System error: NameError: name fraud_indicators is not defined" := by
  constructor
  · exact verification_unbound_name_blocks_success.2.1 boundary_db0 active_employee (some "p")
      (some 17) (some 78) true quiet_face_env zero_distance (20000 * day_us) rfl
      (fun _ => by norm_num [verify_face_recognition, compare_faces, quiet_face_env, round2,
        Except.isOk, Except.toBool])
      (fun _ => by norm_num [validate_gps_location, zero_distance, py_truthy,
        max_allowed_distance, office_lat, office_lon, Except.isOk, Except.toBool])
      (by decide)
  · exact verification_unbound_name_blocks_success.2.2.1 boundary_db0 1 (some "p")
      (some 17) (some 78) true quiet_face_env zero_distance (20000 * day_us)
      ⟨active_employee, none, none⟩ (by decide) rfl
      (fun _ => by norm_num [verify_face_recognition, compare_faces, quiet_face_env, round2,
        Except.isOk, Except.toBool])
      (fun _ => by norm_num [validate_gps_location, zero_distance, py_truthy,
        max_allowed_distance, office_lat, office_lon, Except.isOk, Except.toBool])
      (by decide)

/-- C7: more than zero prior attendance attempts within the last five minutes
raises the high-severity `rapid_attempts` indicator in the fraud heuristics,
and (per the spec model of the absent security service) hard-blocks the
submission: when the earlier photo, face and GPS sub-checks pass, the
verification stage fails with `security_validation_failed`, and the pipeline
never persists a record for such a submission. -/
theorem rapid_repeat_hard_block :
    (∀ db employee photo latitude longitude conf haversine now,
      0 < (db.attendance.filter (fun a =>
          a.employee_id == employee.id && decide (now - 5 * minute_us ≤ a.date))).length →
      (⟨"rapid_attempts", "high", "Multiple attendance attempts within 5 minutes"⟩ : FraudIndicator)
        ∈ detect_fraud_indicators db employee photo latitude longitude conf haversine now)
  ∧ (∀ db employee (p : String) latitude longitude use_face_recognition env haversine now,
      0 < (db.attendance.filter (fun a =>
          a.employee_id == employee.id && decide (now - 5 * minute_us ≤ a.date))).length →
      (use_face_recognition = true → (verify_face_recognition env).isOk = true) →
      ((db.wfh_requests.find? (fun w =>
          w.employee_id == employee.id && w.request_date == now / day_us
          && w.status == "approved")).isNone = true →
        (validate_gps_location haversine latitude longitude).isOk = true) →
      perform_verification db employee (some p) latitude longitude use_face_recognition
        env haversine now
        = .error (.failure "security_validation_failed" "Security validation failed"))
  ∧ (∀ db employee_id photo_base64 latitude longitude use_face_recognition env haversine now,
      0 < (db.attendance.filter (fun a =>
          a.employee_id == employee_id && decide (now - 5 * minute_us ≤ a.date))).length →
      (mark_attendance_comprehensive db employee_id photo_base64 latitude longitude
        use_face_recognition env haversine now).2 = db
      ∧ ∀ i s r, (mark_attendance_comprehensive db employee_id photo_base64 latitude longitude
          use_face_recognition env haversine now).1 ≠ .success i s r) := by
  refine ⟨?_, ?_, ?_⟩
  · intro db employee photo latitude longitude conf haversine now h
    simp only [detect_fraud_indicators]
    rw [if_pos h]
    simp [List.mem_append]
  · intro db employee p latitude longitude use_face_recognition env haversine now h hface hgps
    have hs : (validate_attendance_security db employee.id now).security_passed = false := by
      simp only [validate_attendance_security]
      rw [if_pos h]
    rw [perform_verification_security_gate db employee p latitude longitude
      use_face_recognition env haversine now hface hgps, hs]
    simp
  · intro db employee_id photo_base64 latitude longitude use_face_recognition env haversine now _
    exact mark_outcome db employee_id photo_base64 latitude longitude use_face_recognition
      env haversine now

/-- C7 witness: a prior attempt at 23:58 and a submission at 00:02 the next
day (so the pre-check passes): the indicator fires and verification fails
with `security_validation_failed`. -/
theorem rapid_repeat_hard_block_witness :
    (⟨"rapid_attempts", "high", "Multiple attendance attempts within 5 minutes"⟩ : FraudIndicator)
      ∈ detect_fraud_indicators rapid_db active_employee (some "p") (some 17) (some 78) 95
          zero_distance rapid_now
    ∧ perform_verification rapid_db active_employee (some "p") (some 17) (some 78) true
        quiet_face_env zero_distance rapid_now
      = .error (.failure "security_validation_failed" "Security validation failed")
    ∧ (perform_pre_checks rapid_db 1 rapid_now).isOk = true := by
  refine ⟨?_, ?_, by decide⟩
  · exact rapid_repeat_hard_block.1 rapid_db active_employee (some "p") (some 17) (some 78) 95
      zero_distance rapid_now (by decide)
  · exact rapid_repeat_hard_block.2.1 rapid_db active_employee "p" (some 17) (some 78) true
      quiet_face_env zero_distance rapid_now (by decide)
      (fun _ => by norm_num [verify_face_recognition, compare_faces, quiet_face_env, round2,
        Except.isOk, Except.toBool])
      (fun _ => by norm_num [validate_gps_location, zero_distance, py_truthy,
        max_allowed_distance, Except.isOk, Except.toBool])

/-- C3: `approve_attendance` succeeds only on a record that currently
requires approval, clears the flag, stamps approver, timestamp and notes,
and remaps late to present_late, remote_unverified to remote_approved and
identity_unverified to present_approved; a second approval of the same
record (or any record not pending approval) fails with the
not-pending-approval error and changes nothing. -/
theorem approve_attendance_correct :
    ∀ (db : DB) (aid rid rid2 : ℕ) (notes notes2 : Option String) (now now2 : ℕ)
      (a : AttendanceRow),
    db.attendance.find? (fun r => r.id == aid) = some a →
    ((a.requires_approval = true →
        approve_attendance db aid rid notes now
          = (.success "Attendance approved successfully" (remap_status a.status),
             { db with attendance := db.attendance.map (fun r =>
                 if r.id == aid then
                   { a with
                     requires_approval := false, approved_by := some rid,
                     approved_at := some now, approval_notes := notes,
                     status := remap_status a.status }
                 else r) })
        ∧ approve_attendance (approve_attendance db aid rid notes now).2 aid rid2 notes2 now2
            = (.failure "Attendance does not require approval",
               (approve_attendance db aid rid notes now).2))
      ∧ (a.requires_approval = false →
          approve_attendance db aid rid notes now
            = (.failure "Attendance does not require approval", db))
      ∧ remap_status "late" = "present_late"
      ∧ remap_status "remote_unverified" = "remote_approved"
      ∧ remap_status "identity_unverified" = "present_approved") := by
  intro db aid rid rid2 notes notes2 now now2 a hfind
  have haid : a.id = aid := by
    have hp := List.find?_some hfind
    simpa using hp
  refine ⟨?_, ?_, rfl, rfl, rfl⟩
  · intro hra
    have h1 : approve_attendance db aid rid notes now
        = (.success "Attendance approved successfully" (remap_status a.status),
           { db with attendance := db.attendance.map (fun r =>
               if r.id == aid then
                 { a with
                   requires_approval := false, approved_by := some rid,
                   approved_at := some now, approval_notes := notes,
                   status := remap_status a.status }
               else r) }) := by
      simp [approve_attendance, hfind, hra]
    refine ⟨h1, ?_⟩
    have ha2id : ({ a with
        requires_approval := false, approved_by := some rid,
        approved_at := some now, approval_notes := notes,
        status := remap_status a.status } : AttendanceRow).id = aid := haid
    have hfind2 := find_update_first hfind ha2id
    have h2 : ∀ db2 : DB, db2.attendance = db.attendance.map (fun r =>
        if r.id == aid then
          { a with
            requires_approval := false, approved_by := some rid,
            approved_at := some now, approval_notes := notes,
            status := remap_status a.status }
        else r) →
        approve_attendance db2 aid rid2 notes2 now2
          = (.failure "Attendance does not require approval", db2) := by
      intro db2 hdb2
      simp only [approve_attendance, hdb2, hfind2]
      simp
    exact h2 (approve_attendance db aid rid notes now).2 (by rw [h1])
  · intro hra
    simp [approve_attendance, hfind, hra]

/-- C3 witness: approving the pending late record succeeds and remaps the
status to present_late; the second approval fails and leaves the store as it
was after the first. -/
theorem approve_attendance_correct_witness :
    approve_attendance approval_db 5 9 (some "ok") 77
      = (.success "Attendance approved successfully" "present_late",
         { approval_db with attendance := approval_db.attendance.map (fun r =>
             if r.id == 5 then
               { pending_late_record with
                 requires_approval := false, approved_by := some 9,
                 approved_at := some 77, approval_notes := some "ok",
                 status := remap_status pending_late_record.status }
             else r) })
    ∧ approve_attendance (approve_attendance approval_db 5 9 (some "ok") 77).2 5 11 none 99
      = (.failure "Attendance does not require approval",
         (approve_attendance approval_db 5 9 (some "ok") 77).2) := by
  have h := approve_attendance_correct approval_db 5 9 11 (some "ok") none 77 99
    pending_late_record (by decide) 
  exact ⟨(h.1 (by decide)).1, (h.1 (by decide)).2⟩

/-- C4 (amended): for every assigned shift whose configured grace window does
not cross midnight, a check-in at exactly the shift end is within the main
window with no late minutes; at exactly end + grace it is accepted with
late_minutes = grace; at end + grace + one minute it is still accepted for
record creation but flagged requires_approval with status late and
late_minutes = grace + 1 ≥ 1; and the validation stage never rejects a
submission on timing grounds (its only rejection is the office-mode
location guard). -/
theorem shift_window_boundary_amended :
    ∀ (sh : ShiftRow) (wfh : Option WFHRow) (latitude longitude : Option ℚ)
      (cfg : ShiftConfig),
    (shift_windows sh.name).getD default_window = cfg →
    cfg.start ≤ cfg.shift_end →
    cfg.shift_end + (cfg.grace + 1) * minute_us < day_us →
    (wfh.isSome = true ∨ (py_truthy latitude = true ∧ py_truthy longitude = true)) →
    (perform_validation (some sh) wfh latitude longitude cfg.shift_end
        = .ok { within_time_window := true, requires_approval := false,
                attendance_status := "present",
                work_mode := if wfh.isSome then "wfh" else "office", late_minutes := 0 }
    ∧ perform_validation (some sh) wfh latitude longitude
        (cfg.shift_end + cfg.grace * minute_us)
        = .ok { within_time_window := true, requires_approval := false,
                attendance_status := "present",
                work_mode := if wfh.isSome then "wfh" else "office",
                late_minutes := cfg.grace }
    ∧ perform_validation (some sh) wfh latitude longitude
        (cfg.shift_end + (cfg.grace + 1) * minute_us)
        = .ok { within_time_window := false, requires_approval := true,
                attendance_status := "late",
                work_mode := if wfh.isSome then "wfh" else "office",
                late_minutes := cfg.grace + 1 }
    ∧ ∀ t, (perform_validation (some sh) wfh latitude longitude t).isOk = true) := by
  intro sh wfh latitude longitude cfg hcfg hse hwrap hloc
  have hg : ((((if wfh.isSome = true then "wfh" else "office") : String) == "office")
      && (!(py_truthy latitude) || !(py_truthy longitude))) = false := by
    rcases hloc with h | ⟨h1, h2⟩
    · simp [h]
    · simp [h1, h2]
  have hmod : (cfg.shift_end + cfg.grace * minute_us) % day_us
      = cfg.shift_end + cfg.grace * minute_us := by
    apply Nat.mod_eq_of_lt
    simp only [minute_us, day_us] at hwrap ⊢
    omega
  refine ⟨?_, ?_, ?_, ?_⟩
  · simp only [perform_validation, hcfg]
    rw [if_pos (show cfg.start ≤ cfg.shift_end ∧ cfg.shift_end ≤ cfg.shift_end from
      ⟨hse, Nat.le_refl _⟩)]
    simp [hg]
  · by_cases hG : cfg.grace = 0
    · simp only [hG, Nat.zero_mul, Nat.add_zero]
      simp only [perform_validation, hcfg]
      rw [if_pos (show cfg.start ≤ cfg.shift_end ∧ cfg.shift_end ≤ cfg.shift_end from
        ⟨hse, Nat.le_refl _⟩)]
      simp [hg]
    · have hG1 : 1 ≤ cfg.grace := Nat.one_le_iff_ne_zero.mpr hG
      have h1 : ¬(cfg.start ≤ cfg.shift_end + cfg.grace * minute_us
          ∧ cfg.shift_end + cfg.grace * minute_us ≤ cfg.shift_end) := by
        simp only [minute_us]
        omega
      have h2 : cfg.shift_end + cfg.grace * minute_us
          ≤ (cfg.shift_end + cfg.grace * minute_us) % day_us := by
        rw [hmod]
      have hlm : calculate_late_minutes (cfg.shift_end + cfg.grace * minute_us) cfg.shift_end
          = cfg.grace := by
        simp only [calculate_late_minutes]
        rw [if_pos (by simp only [minute_us]; omega)]
        have h9 : cfg.shift_end + cfg.grace * minute_us - cfg.shift_end
            = cfg.grace * minute_us := by omega
        rw [h9]
        exact Nat.mul_div_cancel _ (by norm_num [minute_us])
      simp only [perform_validation, hcfg]
      rw [if_neg h1, if_pos h2, hlm]
      simp [hg]
  · have h1 : ¬(cfg.start ≤ cfg.shift_end + (cfg.grace + 1) * minute_us
        ∧ cfg.shift_end + (cfg.grace + 1) * minute_us ≤ cfg.shift_end) := by
      simp only [minute_us]
      omega
    have h2 : ¬(cfg.shift_end + (cfg.grace + 1) * minute_us
        ≤ (cfg.shift_end + cfg.grace * minute_us) % day_us) := by
      rw [hmod]
      simp only [minute_us]
      omega
    have hlm : calculate_late_minutes (cfg.shift_end + (cfg.grace + 1) * minute_us) cfg.shift_end
        = cfg.grace + 1 := by
      simp only [calculate_late_minutes]
      rw [if_pos (by simp only [minute_us]; omega)]
      have h9 : cfg.shift_end + (cfg.grace + 1) * minute_us - cfg.shift_end
          = (cfg.grace + 1) * minute_us := by omega
      rw [h9]
      exact Nat.mul_div_cancel _ (by norm_num [minute_us])
    simp only [perform_validation, hcfg]
    rw [if_neg h1, if_neg h2, hlm]
    simp [hg]
  · intro t
    by_cases h1 : cfg.start ≤ t ∧ t ≤ cfg.shift_end
    · simp only [perform_validation, hcfg]
      rw [if_pos h1]
      simp [hg, Except.isOk, Except.toBool]
    · by_cases h2 : t ≤ (cfg.shift_end + cfg.grace * minute_us) % day_us
      · simp only [perform_validation, hcfg]
        rw [if_neg h1, if_pos h2]
        simp [hg, Except.isOk, Except.toBool]
      · simp only [perform_validation, hcfg]
        rw [if_neg h1, if_neg h2]
        simp [hg, Except.isOk, Except.toBool]

/-- C4 witness: the Morning Shift (08:00-11:00, grace 15) at its three
boundary instants, and acceptance at an arbitrary off-window time. -/
theorem shift_window_boundary_amended_witness :
    perform_validation (some ⟨1, "Morning Shift", true⟩) none (some 17) (some 78) (hm 11 0)
      = .ok { within_time_window := true, requires_approval := false,
              attendance_status := "present", work_mode := "office", late_minutes := 0 }
    ∧ perform_validation (some ⟨1, "Morning Shift", true⟩) none (some 17) (some 78) (hm 11 15)
      = .ok { within_time_window := true, requires_approval := false,
              attendance_status := "present", work_mode := "office", late_minutes := 15 }
    ∧ perform_validation (some ⟨1, "Morning Shift", true⟩) none (some 17) (some 78) (hm 11 16)
      = .ok { within_time_window := false, requires_approval := true,
              attendance_status := "late", work_mode := "office", late_minutes := 16 }
    ∧ (perform_validation (some ⟨1, "Morning Shift", true⟩) none (some 17) (some 78)
        (hm 23 0)).isOk = true := by
  have h := shift_window_boundary_amended ⟨1, "Morning Shift", true⟩ none (some 17) (some 78)
    ⟨hm 8 0, hm 11 0, 15⟩ (by decide) (by decide) (by decide)
    (Or.inr ⟨by decide, by decide⟩)
  exact ⟨h.1, h.2.1, h.2.2.1, h.2.2.2 (hm 23 0)⟩

/-- C4 counterexample: the Night Shift ends at 23:59 with 15 minutes grace,
so its grace window wraps past midnight to 00:14; a check-in at 00:15 — one
minute past end + grace as a time of day — is classified late but with
late_minutes = 0, contradicting the claimed late_minutes ≥ 1; and a check-in
at 00:14 (exactly end + grace) is accepted with late_minutes = 0 instead of
the claimed 15 minutes. -/
theorem night_shift_midnight_wrap_counterexample :
    (hm 23 59 + (15 + 1) * minute_us) % day_us = hm 0 15
    ∧ (hm 23 59 + 15 * minute_us) % day_us = hm 0 14
    ∧ perform_validation (some ⟨3, "Night Shift", true⟩) none (some 17) (some 78) (hm 0 15)
      = .ok { within_time_window := false, requires_approval := true,
              attendance_status := "late", work_mode := "office", late_minutes := 0 }
    ∧ perform_validation (some ⟨3, "Night Shift", true⟩) none (some 17) (some 78) (hm 0 14)
      = .ok { within_time_window := true, requires_approval := false,
              attendance_status := "present", work_mode := "office", late_minutes := 0 } := by
  refine ⟨by decide, by decide, by decide, by decide⟩

/-- Closed form of `compare_faces` once both images decode, the quality gate
passes and both encodings extract: the match bit, the discounted confidence,
and the forced-mismatch escalation. -/
theorem compare_faces_eval (env : FaceEnv) (tolerance : ℚ)
    (hdec : env.decode_ok = true) (hqual : env.quality.acceptable = true)
    (henc : env.encoding_ok = true) :
    compare_faces env tolerance =
      { face_match :=
          if 2 ≤ ((if env.liveness.is_likely_live then ([] : List String)
                else ["Possible photo spoofing detected"]) ++ env.liveness.warnings).length
              ∧ (max 0 (min 100 ((1 - env.face_distance) * 100)))
                  * ((if env.liveness.overall_score < 50 then (8:ℚ)/10 else 1)
                     * (if env.quality.quality_score < 80 then (9:ℚ)/10 else 1)) < 85
          then false else decide (env.face_distance ≤ tolerance),
        confidence := round2 ((max 0 (min 100 ((1 - env.face_distance) * 100)))
          * ((if env.liveness.overall_score < 50 then (8:ℚ)/10 else 1)
             * (if env.quality.quality_score < 80 then (9:ℚ)/10 else 1))),
        raw_confidence := round2 (max 0 (min 100 ((1 - env.face_distance) * 100))),
        security_warnings :=
          if 2 ≤ ((if env.liveness.is_likely_live then ([] : List String)
                else ["Possible photo spoofing detected"]) ++ env.liveness.warnings).length
              ∧ (max 0 (min 100 ((1 - env.face_distance) * 100)))
                  * ((if env.liveness.overall_score < 50 then (8:ℚ)/10 else 1)
                     * (if env.quality.quality_score < 80 then (9:ℚ)/10 else 1)) < 85
          then ((if env.liveness.is_likely_live then ([] : List String)
                else ["Possible photo spoofing detected"]) ++ env.liveness.warnings)
            ++ ["Multiple security concerns detected"]
          else ((if env.liveness.is_likely_live then ([] : List String)
                else ["Possible photo spoofing detected"]) ++ env.liveness.warnings),
        confidence_modifier :=
          (if env.liveness.overall_score < 50 then (8:ℚ)/10 else 1)
            * (if env.quality.quality_score < 80 then (9:ℚ)/10 else 1) } := by
  by_cases h1 : env.liveness.overall_score < 50 <;>
    by_cases h2 : env.quality.quality_score < 80 <;>
    cases h3 : env.liveness.is_likely_live <;>
    simp [compare_faces, hdec, hqual, henc, h1, h2, h3]

/-- C5 (amended): with a reference image on file and the preprocessing
passing, the verification stage fails with `face_mismatch` exactly when
`compare_faces` reports no match: when the face distance exceeds the 0.6
tolerance, or when at least two security warnings are present and the
discounted confidence is below 85.  The 60 percent figure of the spec appears
only in the reported error details, not in the decision. -/
theorem face_mismatch_condition_amended :
    ∀ env : FaceEnv, env.profile_image = some () → env.decode_ok = true →
    env.quality.acceptable = true → env.encoding_ok = true →
    (verify_face_recognition env
        = .error (.failure "face_mismatch" "Face does not match profile image")
      ↔ ((6:ℚ)/10 < env.face_distance
         ∨ (2 ≤ ((if env.liveness.is_likely_live then ([] : List String)
                  else ["Possible photo spoofing detected"]) ++ env.liveness.warnings).length
            ∧ (max 0 (min 100 ((1 - env.face_distance) * 100)))
                * ((if env.liveness.overall_score < 50 then (8:ℚ)/10 else 1)
                   * (if env.quality.quality_score < 80 then (9:ℚ)/10 else 1)) < 85))) := by
  intro env hprof hdec hqual henc
  simp only [verify_face_recognition, hprof]
  rw [compare_faces_eval env (6/10) hdec hqual henc]
  by_cases hC : 2 ≤ ((if env.liveness.is_likely_live then ([] : List String)
        else ["Possible photo spoofing detected"]) ++ env.liveness.warnings).length
      ∧ (max 0 (min 100 ((1 - env.face_distance) * 100)))
          * ((if env.liveness.overall_score < 50 then (8:ℚ)/10 else 1)
             * (if env.quality.quality_score < 80 then (9:ℚ)/10 else 1)) < 85
  · rw [if_pos hC]
    exact iff_of_true rfl (Or.inr hC)
  · rw [if_neg hC]
    by_cases hd : env.face_distance ≤ 6/10
    · rw [decide_eq_true hd]
      refine iff_of_false (by simp) ?_
      rintro (h2 | h2)
      · exact absurd h2 (not_lt.mpr hd)
      · exact hC h2
    · rw [decide_eq_false hd]
      exact iff_of_true rfl (Or.inl (not_le.mp hd))

/-- C5 witness: a clean comparison at distance 0.7 (beyond the tolerance)
fails with `face_mismatch`. -/
theorem face_mismatch_condition_amended_witness :
    verify_face_recognition mismatch_face_env
      = .error (.failure "face_mismatch" "Face does not match profile image") :=
  (face_mismatch_condition_amended mismatch_face_env rfl rfl rfl rfl).mpr
    (Or.inl (by norm_num [mismatch_face_env]))

/-- C5 counterexample: a clean comparison at distance 0.5 yields confidence
50, below the claimed 60 percent threshold, yet verification succeeds instead
of failing with `face_mismatch`. -/
theorem confidence_fifty_still_matches :
    verify_face_recognition half_distance_face_env = .ok 50 ∧ (50:ℚ) < 60 := by
  constructor
  · norm_num [verify_face_recognition, compare_faces, half_distance_face_env, round2]
  · norm_num

/-- C8: once a comparison reaches the distance computation, the reported
confidence is the raw clamped confidence discounted multiplicatively by 0.8
for liveness below 50 and by 0.9 for quality below 80, and whenever two or
more security warnings are present and that discounted confidence is below
85, the result is forced to a mismatch regardless of the distance-based
decision. -/
theorem confidence_discount_and_forced_mismatch :
    ∀ (env : FaceEnv) (tolerance : ℚ), env.decode_ok = true →
    env.quality.acceptable = true → env.encoding_ok = true →
    ((compare_faces env tolerance).confidence
        = round2 ((max 0 (min 100 ((1 - env.face_distance) * 100)))
            * ((if env.liveness.overall_score < 50 then (8:ℚ)/10 else 1)
               * (if env.quality.quality_score < 80 then (9:ℚ)/10 else 1)))
    ∧ (2 ≤ ((if env.liveness.is_likely_live then ([] : List String)
            else ["Possible photo spoofing detected"]) ++ env.liveness.warnings).length →
        (max 0 (min 100 ((1 - env.face_distance) * 100)))
          * ((if env.liveness.overall_score < 50 then (8:ℚ)/10 else 1)
             * (if env.quality.quality_score < 80 then (9:ℚ)/10 else 1)) < 85 →
        (compare_faces env tolerance).face_match = false)) := by
  intro env tolerance hdec hqual henc
  rw [compare_faces_eval env tolerance hdec hqual henc]
  refine ⟨rfl, ?_⟩
  intro hw ha
  have hC := And.intro hw ha
  rw [if_pos hC]

/-- C8 witness: distance 0, liveness 40 with one liveness warning, quality
70: two security warnings, confidence 100 × 0.8 × 0.9 = 72 < 85, and the
comparison is forced to a mismatch. -/
theorem confidence_discount_and_forced_mismatch_witness :
    (compare_faces discounted_face_env (6/10)).confidence = 72
    ∧ (compare_faces discounted_face_env (6/10)).face_match = false := by
  have h := confidence_discount_and_forced_mismatch discounted_face_env (6/10) rfl rfl rfl
  constructor
  · rw [h.1]
    norm_num [discounted_face_env, round2]
  · exact h.2 (by norm_num [discounted_face_env]) (by norm_num [discounted_face_env])

/-- C6 (amended): in the shadowed first record stage, a failed location check
with location required yields status remote_unverified with
requires_approval, overriding late — unless the identity rule
(face_verified false with confidence below 0.7) also fires, which overrides
it to identity_unverified; the executed record stage instead copies the
validation-stage status verbatim, and that status is only ever "present" or
"late", so the executed pipeline never assigns remote_unverified. -/
theorem record_status_precedence_amended :
    (∀ (vd : VerificationDataV1) (vld : ValidationDataV1),
      vld.location_required = true → vd.location_verified = false →
      (vd.face_verified = true ∨ (7:ℚ)/10 ≤ vd.face_confidence) →
      determine_status_v1 vd vld = ("remote_unverified", true))
  ∧ (∀ db employee wfh shift photo latitude longitude verification_data validation_data now
        r db2,
      create_attendance_record db employee wfh shift photo latitude longitude
        verification_data validation_data now = (.ok r, db2) →
      r.status = validation_data.attendance_status
      ∧ r.requires_approval = validation_data.requires_approval)
  ∧ (∀ shift wfh latitude longitude t vd,
      perform_validation shift wfh latitude longitude t = .ok vd →
      vd.attendance_status = "present" ∨ vd.attendance_status = "late") := by
  refine ⟨?_, ?_, ?_⟩
  · intro vd vld h1 h2 h3
    simp [determine_status_v1, h1, h2]
    intro hfv
    rcases h3 with h | h
    · simp [h] at hfv
    · exact h
  · intro db employee wfh shift photo latitude longitude verification_data validation_data now
      r db2 h
    simp only [create_attendance_record, Prod.mk.injEq, Except.ok.injEq] at h
    obtain ⟨h1, -⟩ := h
    subst h1
    exact ⟨rfl, rfl⟩
  · intro shift wfh latitude longitude t vd h
    simp only [perform_validation] at h
    repeat' split at h
    all_goals simp_all
    all_goals simp [← h]

/-- C6 witness: the shadowed stage at (location required, unverified, face
verified) yields remote_unverified; the executed validation stage at an
off-window office submission classifies "late", one of the only two statuses
the executed record stage can persist. -/
theorem record_status_precedence_amended_witness :
    determine_status_v1 ⟨true, 95, false⟩ ⟨false, true⟩ = ("remote_unverified", true)
    ∧ ("late" = "present" ∨ "late" = "late") := by
  constructor
  · exact record_status_precedence_amended.1 ⟨true, 95, false⟩ ⟨false, true⟩ rfl rfl
      (Or.inl rfl)
  · exact record_status_precedence_amended.2.2 none none (some 17) (some 78) 0
      ⟨false, true, "late", "office", 0⟩ (by decide)

/-- C6 counterexample: the claim as stated fails on both definitions.  In the
shadowed first record stage a simultaneous identity failure overrides
remote_unverified to identity_unverified; and the executed record stage
persists the validation status ("late" here) even when location was required
and GPS verification did not pass. -/
theorem remote_unverified_not_assigned_counterexample :
    determine_status_v1 ⟨false, 0, false⟩ ⟨false, true⟩ = ("identity_unverified", true)
    ∧ ((create_attendance_record boundary_db0 active_employee none none (some "p") (some 17)
        (some 78) gps_failed_verification_data ⟨false, true, "late", "office", 0⟩
        0).2.attendance.map (fun a => a.status)) = ["late"] := by
  constructor
  · norm_num [determine_status_v1]
  · rfl

/-- C9: both great-circle distance implementations — the asin form of
`_calculate_distance` and the atan2 form of `_haversine_distance`, with the
math-module collaborators instantiated as the real functions (atan2 y x being
the complex argument of x + y·i) — return 0 on identical coordinate pairs and
are symmetric in their two coordinate pairs. -/
theorem geo_distance_zero_and_symmetric :
    (∀ lat lon : ℝ, calculate_distance (fun x => x * Real.pi / 180) Real.sin Real.cos
        Real.arcsin Real.sqrt lat lon lat lon = 0)
  ∧ (∀ lat1 lon1 lat2 lon2 : ℝ, calculate_distance (fun x => x * Real.pi / 180) Real.sin
        Real.cos Real.arcsin Real.sqrt lat1 lon1 lat2 lon2
      = calculate_distance (fun x => x * Real.pi / 180) Real.sin Real.cos Real.arcsin
        Real.sqrt lat2 lon2 lat1 lon1)
  ∧ (∀ lat lon : ℝ, haversine_distance Real.pi Real.sin Real.cos Real.sqrt
        (fun y x => Complex.arg (x + y * Complex.I)) lat lon lat lon = 0)
  ∧ (∀ lat1 lon1 lat2 lon2 : ℝ, haversine_distance Real.pi Real.sin Real.cos Real.sqrt
        (fun y x => Complex.arg (x + y * Complex.I)) lat1 lon1 lat2 lon2
      = haversine_distance Real.pi Real.sin Real.cos Real.sqrt
        (fun y x => Complex.arg (x + y * Complex.I)) lat2 lon2 lat1 lon1) := by
  refine ⟨?_, ?_, ?_, ?_⟩
  · intro lat lon
    simp [calculate_distance]
  · intro la1 lo1 la2 lo2
    have hs : ∀ x y : ℝ, Real.sin ((x * Real.pi / 180 - y * Real.pi / 180) / 2) ^ 2
        = Real.sin ((y * Real.pi / 180 - x * Real.pi / 180) / 2) ^ 2 := by
      intro x y
      have hxy : (x * Real.pi / 180 - y * Real.pi / 180) / 2
          = -((y * Real.pi / 180 - x * Real.pi / 180) / 2) := by ring
      rw [hxy, Real.sin_neg, neg_sq]
    simp only [calculate_distance]
    rw [hs la2 la1, hs lo2 lo1,
      mul_comm (Real.cos (la1 * Real.pi / 180)) (Real.cos (la2 * Real.pi / 180))]
  · intro lat lon
    simp [haversine_distance, Complex.arg_one]
  · intro la1 lo1 la2 lo2
    have hneg : ∀ x y : ℝ, Real.sin ((x - y) * Real.pi / 180 / 2)
        = -Real.sin ((y - x) * Real.pi / 180 / 2) := by
      intro x y
      have hxy : (x - y) * Real.pi / 180 / 2 = -((y - x) * Real.pi / 180 / 2) := by ring
      rw [hxy, Real.sin_neg]
    have ha : Real.sin ((la2 - la1) * Real.pi / 180 / 2) * Real.sin ((la2 - la1) * Real.pi / 180 / 2)
        + Real.cos (la1 * Real.pi / 180) * Real.cos (la2 * Real.pi / 180)
          * Real.sin ((lo2 - lo1) * Real.pi / 180 / 2) * Real.sin ((lo2 - lo1) * Real.pi / 180 / 2)
        = Real.sin ((la1 - la2) * Real.pi / 180 / 2) * Real.sin ((la1 - la2) * Real.pi / 180 / 2)
        + Real.cos (la2 * Real.pi / 180) * Real.cos (la1 * Real.pi / 180)
          * Real.sin ((lo1 - lo2) * Real.pi / 180 / 2) * Real.sin ((lo1 - lo2) * Real.pi / 180 / 2) := by
      rw [hneg la2 la1, hneg lo2 lo1]
      ring
    simp only [haversine_distance]
    rw [ha]

/-- C10: a coordinate equal to exactly 0.0 is falsy to the coordinate guards,
so an office-mode submission on the equator or prime meridian is treated as
having no location: `_validate_gps_location` fails with `location_required`
and the validation stage fails with `location_required_office`, even though
both coordinates were provided. -/
theorem zero_coordinate_location_required :
    ∀ (la lo : ℚ) (haversine : ℚ → ℚ → ℚ → ℚ → ℚ),
    la = 0 ∨ lo = 0 →
    ((py_truthy (some la) = false ∨ py_truthy (some lo) = false)
    ∧ validate_gps_location haversine (some la) (some lo)
        = .error (.failure "location_required" "GPS location is required for office attendance")
    ∧ ∀ (shift : Option ShiftRow) (t : ℕ),
        perform_validation shift none (some la) (some lo) t
          = .error (.failure "location_required_office"
              "GPS location is required for office attendance")) := by
  intro la lo haversine h
  have hfal : (!(py_truthy (some la)) || !(py_truthy (some lo))) = true := by
    rcases h with h | h <;> simp [py_truthy, h]
  refine ⟨?_, ?_, ?_⟩
  · rcases h with h | h
    · exact Or.inl (by simp [py_truthy, h])
    · exact Or.inr (by simp [py_truthy, h])
  · simp only [validate_gps_location]
    rw [if_pos hfal]
  · intro shift t
    rcases h with h | h <;> subst h <;> simp only [perform_validation] <;>
      (repeat' split) <;> simp_all [py_truthy]

/-- C10 witness: latitude exactly 0.0 with a provided longitude fails both
location checks. -/
theorem zero_coordinate_location_required_witness :
    validate_gps_location zero_distance (some 0) (some 78)
      = .error (.failure "location_required" "GPS location is required for office attendance")
    ∧ perform_validation none none (some 0) (some 78) (hm 10 0)
      = .error (.failure "location_required_office"
          "GPS location is required for office attendance") := by
  have h := zero_coordinate_location_required 0 78 zero_distance (Or.inl rfl)
  exact ⟨h.2.1, h.2.2 none (hm 10 0)⟩

end AttendanceApp
